import Mathlib

/-!
Verification development for a small web-scraper program
(`web_scraper.py`): fetch a page, locate an HTML table by class,
extract its rows/cells into a grid of trimmed strings, and export the
grid to a formatted spreadsheet.  The Python source together with the
semantics of the libraries it calls (`requests.raise_for_status`,
BeautifulSoup's `find`/`find_all`/`.text`/`strip`, pandas
`DataFrame(data, columns=...)`, openpyxl cell writing, formatting and
column widths) is embedded shallowly below; theorems settle the listed
behavioural claims.
-/

/-- HTML DOM node, as produced by BeautifulSoup's lenient parser: an
element has a tag name, the (multi-valued) `class` attribute, and an
ordered list of children; text nodes carry raw strings. -/
inductive Node where
  | elem (tag : String) (classes : List String) (children : List Node)
  | text (s : String)
deriving Repr

/-- Children of a node (a text node has none). -/
def nodeChildren : Node → List Node
  | .elem _ _ cs => cs
  | .text _ => []

/-- Document-order (pre-order, depth-first) list of all nodes of the
forests rooted at the given nodes: each node is followed by its own
descendants.  This is the traversal order of BeautifulSoup's
`.descendants` generator, which underlies `find` and `find_all`. -/
def descList : List Node → List Node
  | [] => []
  | .text s :: rest => .text s :: descList rest
  | .elem t c cs :: rest => .elem t c cs :: (descList cs ++ descList rest)

/-- All descendants of a node in document order (the node itself is not
included, matching BeautifulSoup's `find_all` search space). -/
def descendants (n : Node) : List Node :=
  descList (nodeChildren n)

/-- Concatenated text of the forests rooted at the given nodes, in
document order: the semantics of BeautifulSoup's `.text`
(`get_text()` with no separator). -/
def textList : List Node → String
  | [] => ""
  | .text s :: rest => s ++ textList rest
  | .elem _ _ cs :: rest => textList cs ++ textList rest

/-- Text content of one node (BeautifulSoup `node.text`). -/
def nodeText (n : Node) : String :=
  textList [n]

/-- First node in document order satisfying `p` among the forests rooted
at the given nodes: the short-circuit depth-first search performed by
BeautifulSoup's `find` (each node is tested before its descendants,
and a subtree is abandoned as soon as a match is found). -/
def findList (p : Node → Bool) : List Node → Option Node
  | [] => none
  | .text s :: rest =>
    if p (.text s) then some (.text s) else findList p rest
  | .elem t c cs :: rest =>
    if p (.elem t c cs) then some (.elem t c cs)
    else
      match findList p cs with
      | some r => some r
      | none => findList p rest

/-- Python `str.strip()` whitespace set (ASCII part): space, tab,
newline, carriage return, vertical tab, form feed. -/
def pyIsSpace (c : Char) : Bool :=
  c = ' ' || c = '\t' || c = '\n' || c = '\r' || c = '\x0b' || c = '\x0c'

/-- Python `str.strip()`: remove leading and trailing whitespace. -/
def pyStrip (s : String) : String :=
  String.mk (((s.toList.dropWhile pyIsSpace).reverse.dropWhile pyIsSpace).reverse)

/-- Predicate for `row` elements, the tag filter of `find_all('tr')`. -/
def isTr : Node → Bool
  | .elem t _ _ => t == "tr"
  | .text _ => false

/-- Predicate for cell elements, the tag filter of
`find_all(['td', 'th'])`. -/
def isCell : Node → Bool
  | .elem t _ _ => t == "td" || t == "th"
  | .text _ => false

/-- BeautifulSoup `find_all(p)` on a node: all descendants, in document
order, satisfying `p`. -/
def findAllPred (p : Node → Bool) (n : Node) : List Node :=
  (descendants n).filter p

/-- Embedding of `extract_table_data` (web_scraper.py lines 47-65):
`rows = table.find_all('tr')`, then for each row
`cols = [col.text.strip() for col in row.find_all(['td', 'th'])]`. -/
def extract_table_data (table : Node) : List (List String) :=
  (findAllPred isTr table).map (fun row =>
    (findAllPred isCell row).map (fun col => pyStrip (nodeText col)))

/-- Matcher of `soup.find('table', class_=cls)`: a `table` element whose
multi-valued class attribute contains `cls`. -/
def classMatch (cls : String) : Node → Bool
  | .elem t classes _ => t == "table" && classes.contains cls
  | .text _ => false

/-- Embedding of the table-locator step of `main`
(web_scraper.py line 145): `soup.find('table', class_=table_class)`. -/
def find_table (cls : String) (doc : Node) : Option Node :=
  findList (classMatch cls) (nodeChildren doc)


/-- Value stored in a spreadsheet cell by the export pipeline: either a
string coming from the extracted grid, or the float NaN that pandas
inserts when padding a data row that is shorter than the inferred
column count. -/
inductive CellValue where
  | strv (v : String)
  | nan
deriving Repr, DecidableEq

/-- Python `str(value)` for a cell value (`str(float('nan'))` is
`"nan"`). -/
def pyStr : CellValue → String
  | .strv v => v
  | .nan => "nan"

/-- Python truthiness of a cell value: the empty string is falsy, every
other string is truthy, and NaN (a nonzero float) is truthy. -/
def truthy : CellValue → Bool
  | .strv v => v ≠ ""
  | .nan => true

/-- Spreadsheet cell as written by `add_data_to_sheet` together with the
formatting applied by `apply_cell_formatting`: value, boldness of the
font, and horizontal alignment. -/
structure XCell where
  value : CellValue
  bold : Bool
  horizontal : String
deriving Repr, DecidableEq

/-- Embedding of `apply_cell_formatting` (web_scraper.py lines 92-104):
row 1 (the header) is bold and centered, every other row is
left-aligned with the default (non-bold) font. -/
def apply_cell_formatting (v : CellValue) (row_idx : Nat) : XCell :=
  if row_idx = 1 then ⟨v, true, "center"⟩ else ⟨v, false, "left"⟩

/-- Row-writing loop of `add_data_to_sheet` (web_scraper.py lines
87-90): rows are written at indices `row_idx, row_idx + 1, ...` and
each cell is formatted according to its row index. -/
def addRows (row_idx : Nat) : List (List CellValue) → List (List XCell)
  | [] => []
  | r :: rs => r.map (fun v => apply_cell_formatting v row_idx) :: addRows (row_idx + 1) rs

/-- Embedding of `add_data_to_sheet` (web_scraper.py lines 79-90): the
rows produced by `dataframe_to_rows` are written starting at row 1. -/
def add_data_to_sheet (rows : List (List CellValue)) : List (List XCell) :=
  addRows 1 rows

/-- Column count pandas infers from a list-of-lists: the maximum row
length (`pandas.core.internals.construction`, via
`lib.to_object_array`, which pads shorter rows to this length). -/
def inferredWidth (rows : List (List String)) : Nat :=
  rows.foldr (fun r acc => max r.length acc) 0

/-- Padding of one data row to the inferred column count: pandas fills
the missing trailing cells with NaN. -/
def padRow (r : List String) (n : Nat) : List CellValue :=
  r.map CellValue.strv ++ List.replicate (n - r.length) CellValue.nan

/-- Semantics of `pd.DataFrame(rows, columns=cols)` for a list-of-lists
`rows` of strings: an empty list yields an empty frame with the given
columns; otherwise pandas pads every row to the inferred column count
and raises `ValueError` (here `Except.error`) when that count differs
from `len(cols)` ("N columns passed, passed data had K columns"). -/
def pdDataFrame (rows : List (List String)) (cols : List String) :
    Except String (List (List CellValue)) :=
  if rows.isEmpty then .ok []
  else if inferredWidth rows = cols.length then
    .ok (rows.map (fun r => padRow r cols.length))
  else .error "ValueError: columns passed, passed data had different columns"

/-- Semantics of openpyxl `dataframe_to_rows(df, index=False,
header=True)`: the column names first, then the data rows. -/
def dataframe_to_rows (cols : List String) (df : List (List CellValue)) :
    List (List CellValue) :=
  cols.map CellValue.strv :: df

/-- Cells of column `j` over the written rows, as openpyxl's
`ws.columns` yields them: one entry per sheet row, `none` when the row
has no written cell in that column (openpyxl then yields an empty cell
whose `value` is `None`, which is falsy). -/
def columnCells (rows : List (List CellValue)) (j : Nat) : List (Option CellValue) :=
  rows.map (fun r => r.get? j)

/-- Loop body of `adjust_column_widths`:
`max((len(str(cell.value)) for cell in col if cell.value), default=0)`
— only truthy values participate, the empty generator gives 0. -/
def colMax : List (Option CellValue) → Nat
  | [] => 0
  | none :: rest => colMax rest
  | some v :: rest =>
    if truthy v then max (pyStr v).length (colMax rest) else colMax rest

/-- Number of columns of the written area (`ws.max_column` for a sheet
whose rows are written starting at column 1). -/
def maxCol (rows : List (List CellValue)) : Nat :=
  rows.foldr (fun r acc => max r.length acc) 0

/-- Embedding of `adjust_column_widths` (web_scraper.py lines 106-117):
for each column, the width is set to the maximal stringified length of
its truthy cell values (0 when there is none) plus 2. -/
def adjust_column_widths (rows : List (List CellValue)) : List Nat :=
  (List.range (maxCol rows)).map (fun j => colMax (columnCells rows j) + 2)

/-- Embedding of `export_to_excel` (web_scraper.py lines 119-133).
`pd.DataFrame(data[1:], columns=data[0])` raises `IndexError` on an
empty grid (`data[0]`), and propagates the pandas `ValueError` on a
column-count mismatch; otherwise the header row and the padded data
rows are written to a fresh sheet, formatted, and the column widths
adjusted.  The returned pair is the sheet content and the column
widths; the final `wb.save(filename)` writes exactly this document to
disk and is not part of the pure model. -/
def export_to_excel (data : List (List String)) :
    Except String (List (List XCell) × List Nat) :=
  match data with
  | [] => .error "IndexError: list index out of range"
  | header :: rest =>
    (pdDataFrame rest header).map (fun df =>
      let rows := dataframe_to_rows header df
      (add_data_to_sheet rows, adjust_column_widths rows))

/-- Crash observation on the embedded fallible computations: `true` iff
the Python code would terminate with an uncaught exception. -/
def isCrash {α : Type} : Except String α → Bool
  | .error _ => true
  | .ok _ => false


/-- Outcome of the one `requests.get` call performed by
`fetch_webpage`: either an HTTP response (status code and decoded
body) or a network-level failure (connection error, timeout, ...),
which `requests` raises as a `RequestException` carrying a message. -/
inductive HttpResult where
  | success (status : Nat) (body : String)
  | netError (msg : String)
deriving Repr

/-- Semantics of `requests.Response.raise_for_status()`: it raises
`HTTPError` exactly for client-error (400-499) and server-error
(500-599) status codes; any other status, including non-standard
codes of 600 and above, does not raise. -/
def raise_for_status_raises (status : Nat) : Bool :=
  decide (400 ≤ status) && decide (status < 600)

/-- Embedding of `fetch_webpage` (web_scraper.py lines 13-32): on a
network error or a 4xx/5xx status, the `RequestException` is caught,
`"Failed to fetch the web page: ..."` is printed and `None` is
returned; otherwise the response body is returned and nothing is
printed.  The result is the returned value paired with the list of
printed lines. -/
def fetch_webpage (resp : HttpResult) : Option String × List String :=
  match resp with
  | .netError msg => (none, ["Failed to fetch the web page: " ++ msg])
  | .success status body =>
    if raise_for_status_raises status then
      (none, ["Failed to fetch the web page: " ++ (toString status ++ " Error")])
    else (some body, [])

/-- Observable outcome of one run of the program: the lines printed to
standard output, the saved workbook (sheet content and column widths)
when `wb.save` was reached, and the uncaught exception when the run
crashed. -/
structure MainOutcome where
  printed : List String
  saved : Option (List (List XCell) × List Nat)
  crashed : Option String
deriving Repr

/-- Embedding of `main` (web_scraper.py lines 135-155).  HTML parsing
(`parse_html`, a direct call to BeautifulSoup's lenient parser) is
abstracted as the function `parse` from the fetched text to a document
tree; `tableClass` is the configured table class (`'tablaCat'` in the
source).  Control flow follows the source: an absent or empty
(`if html_content:` is falsy) body stops the run; a missing table
prints `"Table not found."`; otherwise the table is extracted and
exported, any exception out of `export_to_excel` being uncaught. -/
def main_model (parse : String → Node) (tableClass : String) (resp : HttpResult) : MainOutcome :=
  match fetch_webpage resp with
  | (none, msgs) => ⟨msgs, none, none⟩
  | (some html, msgs) =>
    if html = "" then ⟨msgs, none, none⟩
    else
      match find_table tableClass (parse html) with
      | none => ⟨msgs ++ ["Table not found."], none, none⟩
      | some table =>
        match export_to_excel (extract_table_data table) with
        | .error e => ⟨msgs ++ ["Table found!"], none, some e⟩
        | .ok result =>
          ⟨msgs ++ ["Table found!", "Data has been exported to table_data.xlsx"],
           some result, none⟩

/-- Simple `td` cell holding one text node. -/
def mkCell (s : String) : Node :=
  .elem "td" [] [.text s]

/-- Simple `tr` row of simple cells. -/
def mkRow (cells : List String) : Node :=
  .elem "tr" [] (cells.map mkCell)

/-- Simple well-formed `table`: direct `tr` children, each holding
`td` cells with plain text content. -/
def mkTable (rows : List (List String)) : Node :=
  .elem "table" [] (rows.map mkRow)

/-- Table whose rows are the simple rows `pre`, then one row with a
single cell holding the text `s` followed by a whole nested
`table` built from `inner`, then the simple rows `post`. -/
def nestedTable (pre : List (List String)) (s : String)
    (inner : List (List String)) (post : List (List String)) : Node :=
  .elem "table" []
    (pre.map mkRow ++
     [.elem "tr" [] [.elem "td" [] [.text s, mkTable inner]]] ++
     post.map mkRow)

/-- Grid of plain values of a formatted sheet (formatting stripped). -/
def valueGrid (sheet : List (List XCell)) : List (List CellValue) :=
  sheet.map (fun r => r.map XCell.value)

/-- Cells of column `j` of a formatted sheet, one entry per row, `none`
when the row has no cell in that column. -/
def sheetColumn (sheet : List (List XCell)) (j : Nat) : List (Option CellValue) :=
  sheet.map (fun r => (r.get? j).map XCell.value)

/-- Width that column `j` of a formatted sheet should receive according
to the longest-truthy-value-plus-2 rule: the maximal stringified
length over the column's truthy values (0 when there is none), plus
the fixed padding of 2. -/
def sheetColWidth (sheet : List (List XCell)) (j : Nat) : Nat :=
  colMax (sheetColumn sheet j) + 2

/-- Number of columns of a formatted sheet (maximal row length). -/
def sheetMaxCol (sheet : List (List XCell)) : Nat :=
  sheet.foldr (fun r acc => max r.length acc) 0

/-- Fetch outcomes in which `requests` raises inside `fetch_webpage`:
any network error, and any HTTP response with a 4xx or 5xx status. -/
def fetchFails : HttpResult → Prop
  | .success s _ => 400 ≤ s ∧ s < 600
  | .netError _ => True

theorem descList_append (l1 l2 : List Node) :
    descList (l1 ++ l2) = descList l1 ++ descList l2 := by
  induction l1 with
  | nil => simp [descList]
  | cons n rest ih =>
    cases n with
    | text s => simp [descList, ih]
    | elem t c cs => simp [descList, ih]

theorem textList_append (l1 l2 : List Node) :
    textList (l1 ++ l2) = textList l1 ++ textList l2 := by
  induction l1 with
  | nil => simp [textList]
  | cons n rest ih =>
    cases n with
    | text s => simp [textList, ih, String.append_assoc]
    | elem t c cs => simp [textList, ih, String.append_assoc]

theorem nodeText_mkCell (s : String) : nodeText (mkCell s) = s := by
  simp [nodeText, mkCell, textList]

theorem filter_isTr_descList_mkCells (cells : List String) :
    (descList (cells.map mkCell)).filter isTr = [] := by
  induction cells with
  | nil => simp [descList]
  | cons s rest ih => simp [mkCell, descList, isTr, ih]

theorem filter_isCell_descList_mkCells (cells : List String) :
    (descList (cells.map mkCell)).filter isCell = cells.map mkCell := by
  induction cells with
  | nil => simp [descList]
  | cons s rest ih => simp [mkCell, descList, isCell, ih]

theorem filter_isTr_descList_mkRows (rows : List (List String)) :
    (descList (rows.map mkRow)).filter isTr = rows.map mkRow := by
  induction rows with
  | nil => simp [descList]
  | cons r rest ih =>
    simp [mkRow, descList, isTr, List.filter_append, ih,
      filter_isTr_descList_mkCells]

theorem filter_isCell_descList_mkRows (rows : List (List String)) :
    (descList (rows.map mkRow)).filter isCell = rows.flatten.map mkCell := by
  induction rows with
  | nil => simp [descList]
  | cons r rest ih =>
    simp [mkRow, descList, isCell, List.filter_append, ih,
      filter_isCell_descList_mkCells]

theorem extractRow_mkRow (cells : List String) :
    (findAllPred isCell (mkRow cells)).map (fun col => pyStrip (nodeText col)) =
      cells.map pyStrip := by
  simp [findAllPred, descendants, mkRow, nodeChildren,
    filter_isCell_descList_mkCells]
  simp [Function.comp, nodeText_mkCell]

theorem extract_mkTable (rows : List (List String)) :
    extract_table_data (mkTable rows) = rows.map (fun r => r.map pyStrip) := by
  simp [extract_table_data, findAllPred, descendants, mkTable, nodeChildren,
    filter_isTr_descList_mkRows]
  intro r _
  have h := extractRow_mkRow r
  simpa [findAllPred, descendants, mkRow, nodeChildren] using h

theorem findList_eq_filter_head (p : Node → Bool) (l : List Node) :
    findList p l = ((descList l).filter p).head? := by
  induction l using descList.induct with
  | case1 => simp [findList, descList]
  | case2 s rest ih =>
    by_cases hp : p (.text s) <;> simp [findList, descList, hp, ih]
  | case3 t c cs rest ih1 ih2 =>
    by_cases hp : p (.elem t c cs)
    · simp [findList, descList, hp]
    · simp only [findList, descList, hp, if_false, List.filter_cons,
        Bool.false_eq_true, List.filter_append, ih1, ih2]
      cases h : (descList cs).filter p with
      | nil => simp [h]
      | cons a as => simp [h]

theorem value_apply_cell_formatting (v : CellValue) (i : Nat) :
    (apply_cell_formatting v i).value = v := by
  unfold apply_cell_formatting
  split <;> rfl

theorem valueGrid_addRows (k : Nat) (rows : List (List CellValue)) :
    valueGrid (addRows k rows) = rows := by
  induction rows generalizing k with
  | nil => simp [addRows, valueGrid]
  | cons r rest ih =>
    have h := ih (k + 1)
    simp only [valueGrid] at h ⊢
    simp only [addRows, List.map_cons, List.map_map, h, List.cons.injEq, and_true]
    have : (XCell.value ∘ fun v => apply_cell_formatting v k) = id := by
      funext v
      simp [Function.comp, value_apply_cell_formatting]
    rw [this, List.map_id]

theorem sheetColumn_addRows (k : Nat) (rows : List (List CellValue)) (j : Nat) :
    sheetColumn (addRows k rows) j = columnCells rows j := by
  induction rows generalizing k with
  | nil => simp [addRows, sheetColumn, columnCells]
  | cons r rest ih =>
    have h := ih (k + 1)
    simp only [sheetColumn, columnCells] at h ⊢
    simp only [addRows, List.map_cons, List.get?_map, Option.map_map, h,
      List.cons.injEq, and_true]
    have : (XCell.value ∘ fun v => apply_cell_formatting v k) = id := by
      funext v
      simp [Function.comp, value_apply_cell_formatting]
    rw [this, Option.map_id]
    rfl

theorem sheetMaxCol_addRows (k : Nat) (rows : List (List CellValue)) :
    sheetMaxCol (addRows k rows) = maxCol rows := by
  induction rows generalizing k with
  | nil => simp [addRows, sheetMaxCol, maxCol]
  | cons r rest ih =>
    have h := ih (k + 1)
    simp only [sheetMaxCol, maxCol] at h ⊢
    simp [addRows, h]

theorem inferredWidth_cons (r : List String) (rest : List (List String)) :
    inferredWidth (r :: rest) = max r.length (inferredWidth rest) := rfl

theorem inferredWidth_const (rows : List (List String)) (n : Nat)
    (h1 : rows ≠ []) (h2 : ∀ r ∈ rows, r.length = n) : inferredWidth rows = n := by
  induction rows with
  | nil => exact absurd rfl h1
  | cons r rest ih =>
    have hr : r.length = n := h2 r (List.mem_cons_self r rest)
    cases rest with
    | nil => simp [inferredWidth_cons, inferredWidth, hr]
    | cons q qs =>
      have hrest : inferredWidth (q :: qs) = n :=
        ih (by simp) (fun x hx => h2 x (List.mem_cons_of_mem r hx))
      rw [inferredWidth_cons, hr, hrest, Nat.max_self]

theorem padRow_full (r : List String) (n : Nat) (h : r.length = n) :
    padRow r n = r.map CellValue.strv := by
  simp [padRow, h]

theorem export_rectangular (header : List String) (rest : List (List String)) (n : Nat)
    (hh : header.length = n) (hr : ∀ r ∈ rest, r.length = n) :
    export_to_excel (header :: rest) =
      .ok (add_data_to_sheet
             (dataframe_to_rows header (rest.map (List.map CellValue.strv))),
           adjust_column_widths
             (dataframe_to_rows header (rest.map (List.map CellValue.strv)))) := by
  cases rest with
  | nil => simp [export_to_excel, pdDataFrame, Except.map]
  | cons q qs =>
    have hw : inferredWidth (q :: qs) = header.length := by
      rw [hh]
      exact inferredWidth_const _ n (by simp) hr
    have hpad : (q :: qs).map (fun r => padRow r header.length) =
        (q :: qs).map (List.map CellValue.strv) := by
      apply List.map_congr_left
      intro r hrr
      exact padRow_full r _ (by rw [hh]; exact hr r hrr)
    simp only [export_to_excel, pdDataFrame, List.isEmpty_cons, hw, if_true, if_false,
      Bool.false_eq_true, ite_false, ite_true, hpad, Except.map]

theorem widths_eq_sheetColWidth (rows : List (List CellValue)) :
    adjust_column_widths rows =
      (List.range (sheetMaxCol (add_data_to_sheet rows))).map
        (sheetColWidth (add_data_to_sheet rows)) := by
  simp [adjust_column_widths, add_data_to_sheet, sheetMaxCol_addRows,
    sheetColWidth, sheetColumn_addRows]

/-- C1 counterexample: the grid whose header has 3 cells and whose only
data row has 2 cells makes the Writer crash — `pd.DataFrame(data[1:],
columns=data[0])` raises `ValueError` ("3 columns passed, passed data
had 2 columns") because the column count inferred from the data rows
(2) differs from the header length, so no spreadsheet is produced. -/
theorem c1_counterexample :
    isCrash (export_to_excel [["a", "b", "c"], ["1", "2"]]) = true := rfl

/-- C1 (amended): for a grid whose header has n cells and which contains
a data row with fewer than n cells, the Writer avoids the crash
exactly when the column count pandas infers from the data rows (their
maximal length) equals n: short rows are then padded with NaN.  When
every data row is shorter than the header (inferred count < n), pandas
raises `ValueError` and no spreadsheet is produced. -/
theorem c1_amended_no_crash_iff (header short : List String) (rest : List (List String))
    (h1 : short ∈ rest) (_h2 : short.length < header.length) :
    isCrash (export_to_excel (header :: rest)) = false ↔
      inferredWidth rest = header.length := by
  have hne : rest ≠ [] := by
    intro h
    rw [h] at h1
    cases h1
  cases rest with
  | nil => exact absurd rfl hne
  | cons q qs =>
    by_cases hw : inferredWidth (q :: qs) = header.length
    · simp [export_to_excel, pdDataFrame, hw, Except.map, isCrash]
    · simp [export_to_excel, pdDataFrame, hw, Except.map, isCrash]

/-- C1 witness: a concrete grid with a 3-cell header, a 2-cell data row
and a full-width data row is exported without a crash. -/
theorem c1_amended_no_crash_iff_witness :
    isCrash (export_to_excel (["a", "b", "c"] :: [["1", "2"], ["x", "y", "z"]])) = false :=
  (c1_amended_no_crash_iff ["a", "b", "c"] ["1", "2"] [["1", "2"], ["x", "y", "z"]]
    (by decide) (by decide)).mpr (by decide)

/-- C2 counterexample: in the grid `[[""], [""]]` the only column is
entirely empty (every cell value is the falsy empty string), yet the
Writer assigns it width 2 (`max(..., default=0) + 2`), not the width 0
the claim states for entirely empty columns. -/
theorem c2_counterexample :
    export_to_excel [[""], [""]] =
      .ok ([[⟨.strv "", true, "center"⟩], [⟨.strv "", false, "left"⟩]], [2]) := rfl

/-- C2 (amended): for every exported sheet, each column's width equals
the length of the longest stringified truthy value observed in that
column plus 2; a column with no truthy value — in particular an
entirely empty column — gets width 0 + 2 = 2, not 0. -/
theorem c2_amended_widths (data : List (List String)) (sheet : List (List XCell))
    (widths : List Nat) (h : export_to_excel data = .ok (sheet, widths)) :
    widths = (List.range (sheetMaxCol sheet)).map (sheetColWidth sheet) := by
  match data with
  | [] => simp [export_to_excel] at h
  | header :: rest =>
    cases hdf : pdDataFrame rest header with
    | error e =>
      simp only [export_to_excel, hdf, Except.map] at h
      exact absurd h (by simp)
    | ok df =>
      simp only [export_to_excel, hdf, Except.map, Except.ok.injEq, Prod.mk.injEq] at h
      obtain ⟨h1, h2⟩ := h
      rw [← h1, ← h2]
      exact widths_eq_sheetColWidth _

/-- C2 witness: for the grid `[["A","B"],["1","2"],["33","4"]]` the
exported widths `[4, 3]` match the longest-truthy-value-plus-2 rule
computed from the exported sheet. -/
theorem c2_amended_widths_witness :
    ([4, 3] : List Nat) =
      (List.range (sheetMaxCol
        [[⟨.strv "A", true, "center"⟩, ⟨.strv "B", true, "center"⟩],
         [⟨.strv "1", false, "left"⟩, ⟨.strv "2", false, "left"⟩],
         [⟨.strv "33", false, "left"⟩, ⟨.strv "4", false, "left"⟩]])).map
        (sheetColWidth
        [[⟨.strv "A", true, "center"⟩, ⟨.strv "B", true, "center"⟩],
         [⟨.strv "1", false, "left"⟩, ⟨.strv "2", false, "left"⟩],
         [⟨.strv "33", false, "left"⟩, ⟨.strv "4", false, "left"⟩]]) :=
  c2_amended_widths [["A", "B"], ["1", "2"], ["33", "4"]]
    [[⟨.strv "A", true, "center"⟩, ⟨.strv "B", true, "center"⟩],
     [⟨.strv "1", false, "left"⟩, ⟨.strv "2", false, "left"⟩],
     [⟨.strv "33", false, "left"⟩, ⟨.strv "4", false, "left"⟩]]
    [4, 3] rfl

/-- C4: on the grid `[["A","B"],["1","2"],["33","4"]]` the Writer
produces the sheet whose header row is `["A","B"]` in bold centered
cells, whose data rows are `["1","2"]` and `["33","4"]` in
left-aligned (non-bold) cells, and whose column widths are 4 for
column A and 3 for column B. -/
theorem c4_writer_on_fixed_grid :
    export_to_excel [["A", "B"], ["1", "2"], ["33", "4"]] =
      .ok ([[⟨.strv "A", true, "center"⟩, ⟨.strv "B", true, "center"⟩],
            [⟨.strv "1", false, "left"⟩, ⟨.strv "2", false, "left"⟩],
            [⟨.strv "33", false, "left"⟩, ⟨.strv "4", false, "left"⟩]],
           [4, 3]) := rfl

/-- C9: on the empty grid `export_to_excel` crashes — `data[0]`, the
header selection, raises `IndexError` — and consequently in a run
whose located table yields an empty grid (a matching `table` element
with no `tr` descendants) the error is uncaught and no file is
written. -/
theorem c9_empty_grid_crash :
    isCrash (export_to_excel ([] : List (List String))) = true ∧
    main_model (fun _ => Node.elem "html" [] [Node.elem "table" ["tablaCat"] []])
        "tablaCat" (.success 200 "<html>") =
      ⟨["Table found!"], none, some "IndexError: list index out of range"⟩ := by
  refine ⟨rfl, ?_⟩
  simp [main_model, fetch_webpage, raise_for_status_raises, find_table, findList,
    nodeChildren, classMatch, extract_table_data, findAllPred, descendants,
    descList, export_to_excel]

theorem addRows_length (k : Nat) (rows : List (List CellValue)) :
    (addRows k rows).length = rows.length := by
  induction rows generalizing k with
  | nil => rfl
  | cons r rest ih => simp [addRows, ih]

/-- C3: for a well-formed table — non-empty, rectangular with a positive
number of columns, direct rows of plain-text cells — extraction
followed by export succeeds and yields a sheet with the same number of
rows as the table, and whose grid of cell values is exactly the
table's grid of whitespace-trimmed cell texts (so each row also keeps
its cell count). -/
theorem c3_round_trip (texts : List (List String)) (n : Nat)
    (h1 : texts ≠ []) (h2 : ∀ r ∈ texts, r.length = n) (_h3 : 0 < n) :
    ∃ sheet widths,
      export_to_excel (extract_table_data (mkTable texts)) = .ok (sheet, widths) ∧
      sheet.length = texts.length ∧
      valueGrid sheet = texts.map (fun r => r.map (fun s => CellValue.strv (pyStrip s))) := by
  cases texts with
  | nil => exact absurd rfl h1
  | cons t ts =>
    rw [extract_mkTable, List.map_cons]
    have hh : (t.map pyStrip).length = n := by
      simp [h2 t (List.mem_cons_self t ts)]
    have hr : ∀ r ∈ ts.map (fun r => r.map pyStrip), r.length = n := by
      intro r hrr
      obtain ⟨q, hq, rfl⟩ := List.mem_map.1 hrr
      simp [h2 q (List.mem_cons_of_mem t hq)]
    rw [export_rectangular (t.map pyStrip) (ts.map (fun r => r.map pyStrip)) n hh hr]
    refine ⟨_, _, rfl, ?_, ?_⟩
    · simp [add_data_to_sheet, addRows_length, dataframe_to_rows]
    · rw [add_data_to_sheet, valueGrid_addRows]
      simp [dataframe_to_rows, List.map_map, Function.comp]

/-- C3 witness: the concrete 2x2 table with cell texts
`[["A","B"],["1","2"]]` round-trips. -/
theorem c3_round_trip_witness :
    ∃ sheet widths,
      export_to_excel (extract_table_data (mkTable [["A", "B"], ["1", "2"]])) =
        .ok (sheet, widths) ∧
      sheet.length = [["A", "B"], ["1", "2"]].length ∧
      valueGrid sheet =
        [["A", "B"], ["1", "2"]].map (fun r => r.map (fun s => CellValue.strv (pyStrip s))) :=
  c3_round_trip [["A", "B"], ["1", "2"]] 2 (by decide) (by decide) (by decide)

/-- C5 counterexample: a response with the non-standard status 600 and a
non-empty body is outside the 4xx/5xx ranges checked by
`raise_for_status`, so `fetch_webpage` returns the body (not `None`)
and prints nothing, although the claim covers every status of at least
400. -/
theorem c5_counterexample :
    fetch_webpage (.success 600 "<html>") = (some "<html>", []) := rfl

/-- C5 (amended): for every network error and every HTTP response whose
status is in the ranges `raise_for_status` raises for (400-599),
`fetch_webpage` prints one `"Failed to fetch the web page: ..."`
diagnostic line and returns `None`, no exception propagates, and the
run saves no file and crashes nowhere. -/
theorem c5_amended_soft_failure (parse : String → Node) (cls : String) (resp : HttpResult)
    (h : fetchFails resp) :
    (fetch_webpage resp).1 = none ∧
    (∃ m, (fetch_webpage resp).2 = ["Failed to fetch the web page: " ++ m]) ∧
    (main_model parse cls resp).saved = none ∧
    (main_model parse cls resp).crashed = none := by
  cases resp with
  | netError msg => exact ⟨rfl, ⟨msg, rfl⟩, rfl, rfl⟩
  | success status body =>
    obtain ⟨ha, hb⟩ := h
    have hraise : raise_for_status_raises status = true := by
      simp [raise_for_status_raises, ha, hb]
    refine ⟨?_, ⟨toString status ++ " Error", ?_⟩, ?_, ?_⟩ <;>
      simp [fetch_webpage, main_model, hraise]

/-- C5 witness: a 404 response is reported and softly dropped. -/
theorem c5_amended_soft_failure_witness :
    (fetch_webpage (.success 404 "x")).1 = none ∧
    (∃ m, (fetch_webpage (.success 404 "x")).2 =
      ["Failed to fetch the web page: " ++ m]) ∧
    (main_model (fun _ => Node.text "") "tablaCat" (.success 404 "x")).saved = none ∧
    (main_model (fun _ => Node.text "") "tablaCat" (.success 404 "x")).crashed = none :=
  c5_amended_soft_failure (fun _ => Node.text "") "tablaCat" (.success 404 "x")
    (by show 400 ≤ 404 ∧ 404 < 600; exact ⟨by decide, by decide⟩)

/-- C6: when the fetch succeeds with a truthy body and the parsed
document has no `table` element carrying the configured class, the run
prints exactly the plain message `"Table not found."` and neither
saves a file nor crashes (extraction and export never run). -/
theorem c6_table_not_found (parse : String → Node) (cls : String) (status : Nat)
    (body : String) (h1 : status < 400 ∨ 600 ≤ status) (h2 : body ≠ "")
    (h3 : find_table cls (parse body) = none) :
    main_model parse cls (.success status body) = ⟨["Table not found."], none, none⟩ := by
  have hraise : raise_for_status_raises status = false := by
    simp only [raise_for_status_raises, Bool.and_eq_false_iff, decide_eq_false_iff_not,
      not_le, not_lt]
    omega
  simp [main_model, fetch_webpage, hraise, h2, h3]

/-- C6 witness: a successful fetch of a document with no matching table
reports `"Table not found."` and writes nothing. -/
theorem c6_table_not_found_witness :
    main_model (fun _ => Node.text "") "tablaCat" (.success 200 "x") =
      ⟨["Table not found."], none, none⟩ :=
  c6_table_not_found (fun _ => Node.text "") "tablaCat" 200 "x" (Or.inl (by decide))
    (by decide) (by simp [find_table, findList, nodeChildren])

/-- C7: the table locator — BeautifulSoup's short-circuit depth-first
`find` — returns exactly the head of the document-order list of
descendants filtered to `table` elements carrying the target class:
the first match in document order when one exists, and `none` when no
element matches. -/
theorem c7_locator_first_match (cls : String) (doc : Node) :
    find_table cls doc = ((descendants doc).filter (classMatch cls)).head? :=
  findList_eq_filter_head (classMatch cls) (nodeChildren doc)

/-- C8: extraction of a simple table trims surrounding whitespace from
every cell text (each extracted cell is `pyStrip` of the cell's text,
and `"  foo  "` strips to `"foo"`), and a row with zero `td`/`th`
cells is kept as the empty list rather than filtered out (the grid
equality maps a cell-less row to `[]`). -/
theorem c8_trim_and_empty_rows (texts : List (List String)) :
    extract_table_data (mkTable texts) = texts.map (fun r => r.map pyStrip) ∧
    pyStrip "  foo  " = "foo" :=
  ⟨extract_mkTable texts, by decide⟩

theorem c10_nested_rows (pre post inner : List (List String)) (s : String) :
    findAllPred isTr (nestedTable pre s inner post) =
      pre.map mkRow ++
      (Node.elem "tr" [] [Node.elem "td" [] [Node.text s, mkTable inner]] ::
        (inner.map mkRow ++ post.map mkRow)) := by
  simp only [findAllPred, descendants, nestedTable, nodeChildren, descList_append,
    List.filter_append, filter_isTr_descList_mkRows]
  simp [descList, isTr, mkTable, List.filter_append, filter_isTr_descList_mkRows]

theorem c10_nested_cells (inner : List (List String)) (s : String) :
    findAllPred isCell
        (Node.elem "tr" [] [Node.elem "td" [] [Node.text s, mkTable inner]]) =
      Node.elem "td" [] [Node.text s, mkTable inner] :: inner.flatten.map mkCell := by
  simp [findAllPred, descendants, nodeChildren, descList, isCell, mkTable,
    List.filter_append, filter_isCell_descList_mkRows]

theorem c10_nested_text (inner : List (List String)) (s : String) :
    nodeText (Node.elem "td" [] [Node.text s, mkTable inner]) =
      s ++ nodeText (mkTable inner) := by
  simp [nodeText, textList, mkTable, String.append_assoc]

theorem map_extract_mkRows (rows : List (List String)) :
    (rows.map mkRow).map
        (fun row => (findAllPred isCell row).map (fun col => pyStrip (nodeText col))) =
      rows.map (fun r => r.map pyStrip) := by
  rw [List.map_map]
  apply List.map_congr_left
  intro r _
  exact extractRow_mkRow r

/-- C10: for any table containing, among its rows, one row whose single
cell holds the text `s` followed by a whole nested table, extraction
returns the nested table's rows as additional separate rows of the
outer grid (placed, in document order, right after the enclosing outer
row), while the nested cells' text is also concatenated into the
enclosing cell's extracted text (`pyStrip (s ++ nodeText (mkTable
inner))`) — and, the cell search being descendant-wide too, the
nested cells additionally reappear as cells of the enclosing row. -/
theorem c10_nested_table_extraction (pre post inner : List (List String)) (s : String) :
    extract_table_data (nestedTable pre s inner post) =
      pre.map (fun r => r.map pyStrip) ++
      ((pyStrip (s ++ nodeText (mkTable inner)) :: inner.flatten.map pyStrip) ::
        (inner.map (fun r => r.map pyStrip) ++ post.map (fun r => r.map pyStrip))) := by
  simp only [extract_table_data, c10_nested_rows, List.map_append, List.map_cons,
    map_extract_mkRows, c10_nested_cells, List.map_map]
  simp only [c10_nested_text]
  have hrow : ∀ (l : List (List String)),
      List.map ((fun row =>
        List.map (fun col => pyStrip (nodeText col)) (findAllPred isCell row)) ∘ mkRow) l =
        List.map (fun r => List.map pyStrip r) l := by
    intro l
    rw [← List.map_map]
    exact map_extract_mkRows l
  have hcell :
      List.map ((fun col => pyStrip (nodeText col)) ∘ mkCell) inner.flatten =
        List.map pyStrip inner.flatten := by
    apply List.map_congr_left
    intro x _
    simp [Function.comp, nodeText_mkCell]
  rw [hrow pre, hrow inner, hrow post, hcell]
